import Mathlib

/-!
Verification of the ymc-backend generative gateway (`src/main.py`).

The service is a small FastAPI app that proxies chat / streaming-chat /
image requests to the Google Generative Language API.  We shallowly embed
the request handlers: JSON values become an inductive `Json`, Python dict
and list accesses become explicit partial operations (`none` models a
raised `TypeError`/`AttributeError`), HTTP exceptions become an explicit
`PyExc` value, and the outcome of the single outbound HTTP call is passed
in as a parameter (`UpstreamOutcome` / `StreamOutcome`).  Each handler is
transcribed line by line from the source.
-/

/-- JSON values as decoded by Python's `resp.json()`. -/
inductive Json where
  | null : Json
  | bool : Bool → Json
  | num : Int → Json
  | str : String → Json
  | arr : List Json → Json
  | obj : List (String × Json) → Json

/-- Python truthiness of a decoded JSON value (`if not x`). -/
def Json.truthy : Json → Bool
  | .null => false
  | .bool b => b
  | .num n => n != 0
  | .str s => s != ""
  | .arr xs => !xs.isEmpty
  | .obj kvs => !kvs.isEmpty

/-- Dictionary lookup `d[k]` on an object, `none` otherwise. -/
def Json.get : Json → String → Option Json
  | .obj kvs, k => kvs.lookup k
  | _, _ => none

/-- Python `d.get(k, default)`: `none` models the `AttributeError` raised
when the receiver is not a dict. -/
def pyGet (j : Json) (k : String) (dflt : Json) : Option Json :=
  match j with
  | .obj kvs => some ((kvs.lookup k).getD dflt)
  | _ => none

/-- Python `xs[0]` on a decoded JSON list; `none` models the
`IndexError`/`TypeError` raised otherwise. -/
def pyIndex0 : Json → Option Json
  | .arr (x :: _) => some x
  | _ => none

/-- Python `str()` of a decoded JSON value (the reading used by the
f-string `f"data: \x7berr_json\x7d"` in the streaming error branch); string
contents are assumed not to need `repr` escaping. -/
def pyRepr : Json → String
  | .null => "None"
  | .bool true => "True"
  | .bool false => "False"
  | .num n => toString n
  | .str s => "'" ++ s ++ "'"
  | .arr xs => "[" ++ String.intercalate ", " (xs.attach.map (fun x => pyRepr x.1)) ++ "]"
  | .obj kvs =>
      "\x7b" ++
        String.intercalate ", "
          (kvs.attach.map (fun kv => "'" ++ kv.1.1 ++ "': " ++ pyRepr kv.1.2)) ++
      "\x7d"
decreasing_by
  · have := List.sizeOf_lt_of_mem x.2
    simp_wf
    omega
  · obtain ⟨⟨k, v⟩, hm⟩ := kv
    have := List.sizeOf_lt_of_mem hm
    simp_wf
    simp only [Prod.mk.sizeOf_spec] at this
    omega

/-- Python `str()` at the top level of an f-string: a bare string
interpolates without quotes, every other value via `pyRepr`. -/
def pyStr : Json → String
  | .str s => s
  | j => pyRepr j

/-- A Python exception escaping a handler: either a FastAPI
`HTTPException` (status plus detail) or any other exception with its
message. -/
inductive PyExc where
  | httpExc : Nat → Json → PyExc
  | other : String → PyExc

/-- Outcome of one unary outbound `requests.post` / `.json()` pair:
the post itself raised, the body failed to decode as JSON, or a JSON
body was decoded alongside an HTTP status. -/
inductive UpstreamOutcome where
  | netFail : String → UpstreamOutcome
  | badJson : String → UpstreamOutcome
  | ok : Nat → Json → UpstreamOutcome

/-- One outbound HTTP request made by a handler (url and JSON payload). -/
structure OutboundCall where
  url : String
  payload : Json

/-- An HTTP response sent back to the client. -/
structure Response where
  status : Nat
  body : Json

def V1_BASE_URL : String := "https://generativelanguage.googleapis.com/v1/models"

def V1BETA_BASE_URL : String := "https://generativelanguage.googleapis.com/v1beta/models"

/-- `fastapi.security.APIKeyHeader(name="X-API-KEY")` with the default
`auto_error=True`: a missing (or empty) header value short-circuits with
HTTP 403 `"Not authenticated"` before `verify_api_key` ever runs. -/
def api_key_header (headerVal : Option String) : Except PyExc String :=
  match headerVal with
  | none => .error (.httpExc 403 (.str "Not authenticated"))
  | some k => if k = "" then .error (.httpExc 403 (.str "Not authenticated")) else .ok k

/-- `verify_api_key` (src/main.py lines 48-50). -/
def verify_api_key (api_key API_TOKEN : String) : Except PyExc Unit :=
  if api_key ≠ API_TOKEN then
    .error (.httpExc 401 (.obj [("error", .str "Invalid API Token")]))
  else .ok ()

/-- The auth dependency chain on every protected route: header extraction
by `APIKeyHeader`, then `verify_api_key`. -/
def authGate (headerVal : Option String) (API_TOKEN : String) : Except PyExc Unit :=
  match api_key_header headerVal with
  | .error e => .error e
  | .ok k => verify_api_key k API_TOKEN

/-- `call_google_api` (src/main.py lines 63-74): decode the body as JSON,
then raise `HTTPException(resp.status_code, data.get("error", data))` on a
non-200 status, else return the decoded body. -/
def call_google_api (o : UpstreamOutcome) : Except PyExc Json :=
  match o with
  | .netFail msg => .error (.other msg)
  | .badJson msg => .error (.other msg)
  | .ok status data =>
    if status ≠ 200 then
      match pyGet data "error" data with
      | none => .error (.other "AttributeError: get")
      | some d => .error (.httpExc status d)
    else .ok data

/-- The generation payload built by `chat` (src/main.py lines 87-94). -/
def chat_payload (prompt : String) : Json :=
  .obj [("contents", .arr [
    .obj [("role", .str "user"),
          ("parts", .arr [.obj [("text", .str prompt)]])]])]

/-- The generation payload built by `chat_stream` (src/main.py
lines 128-135). -/
def chat_stream_payload (prompt : String) : Json :=
  .obj [("contents", .arr [
    .obj [("role", .str "user"),
          ("parts", .arr [.obj [("text", .str prompt)]])]])]

def TEXT_URL : String := V1_BASE_URL ++ "/gemini-1.5-pro:generateContent"

def STREAM_URL : String := V1BETA_BASE_URL ++ "/gemini-1.5-pro:streamGenerateContent"

def IMAGE_URL : String := V1BETA_BASE_URL ++ "/gemini-1.5-flash:generateContent"

/-- The "safe parsing" of the unary result in `chat` (src/main.py
lines 98-107); `none` models an uncaught `TypeError` on a value of an
unexpected shape. -/
def chat_extract (result : Json) : Option Json :=
  match pyGet result "candidates" (.arr []) with
  | none => none
  | some candidates =>
    if !candidates.truthy then some (.obj [("response", .str "")])
    else
      match pyIndex0 candidates with
      | none => none
      | some c0 =>
        match pyGet c0 "content" (.obj []) with
        | none => none
        | some content =>
          match pyGet content "parts" (.arr []) with
          | none => none
          | some parts =>
            if parts.truthy then
              match pyIndex0 parts with
              | none => none
              | some p0 =>
                match pyGet p0 "text" (.str "") with
                | none => none
                | some text => some (.obj [("response", text)])
            else some (.obj [("response", .str "")])

/-- The `chat` handler body (src/main.py lines 81-107), given the outcome
of its one outbound call; the first component records the outbound calls
made. -/
def chat (prompt : String) (o : UpstreamOutcome) :
    List OutboundCall × Except PyExc Json :=
  (⟨TEXT_URL, chat_payload prompt⟩ :: [],
   match call_google_api o with
   | .error e => .error e
   | .ok result =>
     match chat_extract result with
     | none => .error (.other "TypeError")
     | some r => .ok r)

/-- Outcome of the streaming outbound call in `chat_stream`: the initial
HTTP status, the decoded error body when `r.json()` succeeds on the error
path (`none` when it raises), and the non-empty lines later produced by
`r.iter_lines()`, decoded as UTF-8. -/
structure StreamOutcome where
  status : Nat
  jsonBody : Option Json
  lines : List String

/-- Python's `line.startswith(b"data:")` on UTF-8 bytes, modelled as a
character-level prefix test (equivalent on valid UTF-8). -/
def startswith (line marker : String) : Bool :=
  marker.data.isPrefixOf line.data

/-- One iteration of the relay loop (src/main.py lines 155-162): skip
falsy lines, forward `data:`-prefixed lines re-terminated with a double
newline, drop everything else. -/
def forward_line (line : String) : List String :=
  if line = "" then []
  else if startswith line "data:" then [line ++ "\n\n"] else []

/-- The `event_stream` generator inside `chat_stream` (src/main.py
lines 137-165), as the list of chunks it yields. -/
def event_stream (o : StreamOutcome) : List String :=
  if o.status ≠ 200 then
    let err_json := o.jsonBody.getD (.obj [("error", .str "stream error")])
    ["data: " ++ pyStr err_json ++ "\n\n"]
  else
    (o.lines.map forward_line).flatten ++ ["data: [DONE]\n\n"]

/-- The `chat_stream` handler body (src/main.py lines 114-167): one
outbound streaming call, whose relay output is `event_stream`. -/
def chat_stream (prompt : String) (o : StreamOutcome) :
    List OutboundCall × List String :=
  (⟨STREAM_URL, chat_stream_payload prompt⟩ :: [], event_stream o)

/-- The `generate_image` handler body (src/main.py lines 174-186):
`body.get("payload")`, 400 when falsy, otherwise forward the payload
verbatim through `call_google_api` and return the raw upstream body. -/
def generate_image (body : Json) (o : UpstreamOutcome) :
    List OutboundCall × Except PyExc Json :=
  match pyGet body "payload" .null with
  | none => ([], .error (.other "AttributeError: get"))
  | some payload =>
    if !payload.truthy then
      ([], .error (.httpExc 400 (.obj [("error", .str "payload is required")])))
    else (⟨IMAGE_URL, payload⟩ :: [], call_google_api o)

/-- `/chat` with its auth dependency: the dependency runs before the
handler body, so an auth failure makes no outbound call. -/
def chat_route (header : Option String) (API_TOKEN prompt : String)
    (o : UpstreamOutcome) : List OutboundCall × Except PyExc Json :=
  match authGate header API_TOKEN with
  | .error e => ([], .error e)
  | .ok _ => chat prompt o

/-- `/chat/stream` with its auth dependency. -/
def chat_stream_route (header : Option String) (API_TOKEN prompt : String)
    (o : StreamOutcome) : List OutboundCall × Except PyExc (List String) :=
  match authGate header API_TOKEN with
  | .error e => ([], .error e)
  | .ok _ => ((chat_stream prompt o).1, .ok (chat_stream prompt o).2)

/-- `/generate-image` with its auth dependency. -/
def generate_image_route (header : Option String) (API_TOKEN : String)
    (body : Json) (o : UpstreamOutcome) :
    List OutboundCall × Except PyExc Json :=
  match authGate header API_TOKEN with
  | .error e => ([], .error e)
  | .ok _ => generate_image body o

/-- `http_exception_handler` (src/main.py lines 215-220) wraps an
`HTTPException` as `\x7bdetail: ...\x7d` with its status; no handler in the
module catches any other exception, so those yield no response here. -/
def http_exception_handler (e : PyExc) : Option Response :=
  match e with
  | .httpExc status detail => some ⟨status, .obj [("detail", detail)]⟩
  | .other _ => none

/-- Full outward rendering of a handler result: a normal return becomes a
200 JSON response, an `HTTPException` goes through
`http_exception_handler`, anything else escapes the module unhandled. -/
def render (r : Except PyExc Json) : Option Response :=
  match r with
  | .ok j => some ⟨200, j⟩
  | .error e => http_exception_handler e

/-- One entry of the upstream model catalog. -/
structure ModelDescriptor where
  name : String
  supportedGenerationMethods : List String

/-- Failure of the model resolver. -/
inductive ResolveError where
  | NoEligibleModel : String → ResolveError

/-- Modelled from the spec: `src/main.py` pins `gemini-1.5-pro` directly
and contains no catalog-based model resolver; spec section 4.2 describes
the fallback used by the repository's other variants — scan the fetched
catalog in the provider's order and return the name of the first
descriptor whose supported-methods set contains the requested capability,
otherwise fail with `NoEligibleModel` naming the capability. -/
def resolve_from_catalog (catalog : List ModelDescriptor) (capability : String) :
    Except ResolveError String :=
  match catalog with
  | [] => .error (.NoEligibleModel capability)
  | m :: ms =>
    if capability ∈ m.supportedGenerationMethods then .ok m.name
    else resolve_from_catalog ms capability

/-- An upstream unary body shaped like the provider's response: first
candidate, first part and text key in front, with arbitrary extra keys
(`restR`, `restC`, `restK`, `restP`) and extra elements (`cs`, `ps`)
threaded through every level. -/
def shaped_result (t : Json) (cs ps : List Json)
    (restR restC restK restP : List (String × Json)) : Json :=
  Json.obj
    (("candidates",
      Json.arr
        (Json.obj
          (("content",
            Json.obj
              (("parts",
                Json.arr (Json.obj (("text", t) :: restP) :: ps))
               :: restK))
           :: restC)
         :: cs))
     :: restR)

/-- C8: for every prompt, the generation payload built by the `/chat`
handler contains exactly one turn, whose role is `"user"` and whose parts
list contains exactly one element, a single text part holding the
prompt. -/
theorem C8_single_user_turn (prompt : String) :
    ∃ turn part : Json,
      (chat_payload prompt).get "contents" = some (.arr [turn])
      ∧ turn.get "role" = some (.str "user")
      ∧ turn.get "parts" = some (.arr [part])
      ∧ part.get "text" = some (.str prompt) :=
  ⟨.obj [("role", .str "user"), ("parts", .arr [.obj [("text", .str prompt)]])],
   .obj [("text", .str prompt)], rfl, rfl, rfl, rfl⟩

/-- C10: `/chat` and `/chat/stream` build identical generation payloads
for the same prompt; the two endpoints differ in the pinned upstream URL
they target. -/
theorem C10_chat_and_stream_same_payload (prompt : String) :
    chat_payload prompt = chat_stream_payload prompt ∧ TEXT_URL ≠ STREAM_URL :=
  ⟨rfl, by decide⟩

theorem flatten_forward_eq_filter (ls : List String) :
    (ls.map forward_line).flatten =
      (ls.filter (fun l => startswith l "data:")).map (fun l => l ++ "\n\n") := by
  induction ls with
  | nil => rfl
  | cons l ls ih =>
    have hf : forward_line l = if startswith l "data:" then [l ++ "\n\n"] else [] := by
      by_cases he : l = ""
      · subst he; rfl
      · simp [forward_line, he]
    simp only [List.map_cons, List.flatten_cons, List.filter_cons, hf, ih]
    by_cases hd : startswith l "data:"
    · simp [hd]
    · simp [hd]

/-- C1: on a success upstream status, the relay forwards exactly the
upstream lines that begin with `"data:"`, in arrival order, each verbatim
with `"\n\n"` appended; blank and non-data lines are dropped; and after
the stream is exhausted exactly one final synthetic `"data: [DONE]\n\n"`
event is emitted. -/
theorem C1_streaming_relay (o : StreamOutcome) (h : o.status = 200) :
    event_stream o =
      (o.lines.filter (fun l => startswith l "data:")).map (fun l => l ++ "\n\n")
        ++ ["data: [DONE]\n\n"] := by
  unfold event_stream
  rw [if_neg (by simp [h]), flatten_forward_eq_filter]

/-- Witness for C1 at the spec's own example stream. -/
theorem C1_streaming_relay_witness :
    (StreamOutcome.mk 200 none
        ["data: \x7b\"t\":\"he\"\x7d", "", "event: ping", "data: \x7b\"t\":\"llo\"\x7d"]).status = 200
    ∧ event_stream (StreamOutcome.mk 200 none
        ["data: \x7b\"t\":\"he\"\x7d", "", "event: ping", "data: \x7b\"t\":\"llo\"\x7d"]) =
      ["data: \x7b\"t\":\"he\"\x7d\n\n", "data: \x7b\"t\":\"llo\"\x7d\n\n", "data: [DONE]\n\n"] := by
  refine ⟨rfl, ?_⟩
  rw [C1_streaming_relay _ rfl]
  rfl

/-- C5: on a non-success initial upstream status, the relay emits exactly
one event, carrying the (stringified) upstream error body; its output is
independent of any stream lines, and in particular no terminal
`"data: [DONE]\n\n"` event follows the error event. -/
theorem C5_stream_error_single_event (o : StreamOutcome) (h : o.status ≠ 200) :
    event_stream o =
      ["data: " ++ pyStr (o.jsonBody.getD (.obj [("error", .str "stream error")])) ++ "\n\n"]
    ∧ ∀ ls, event_stream ⟨o.status, o.jsonBody, ls⟩ = event_stream o := by
  constructor
  · simp only [event_stream]
    rw [if_pos h]
  · intro ls
    simp only [event_stream]
    rw [if_pos h, if_pos h]

/-- Witness for C5 at a concrete 429 error body. -/
theorem C5_stream_error_single_event_witness :
    (StreamOutcome.mk 429 (some (.obj [("error", .str "quota")])) ["data: x"]).status ≠ 200
    ∧ event_stream (StreamOutcome.mk 429 (some (.obj [("error", .str "quota")])) ["data: x"]) =
        ["data: \x7b'error': 'quota'\x7d\n\n"] := by
  refine ⟨by decide, ?_⟩
  rw [(C5_stream_error_single_event
        (StreamOutcome.mk 429 (some (.obj [("error", .str "quota")])) ["data: x"]) (by decide)).1]
  simp [pyStr, pyRepr]
  rfl

/-- C6: the resolver scans the fetched catalog in the provider's order and
returns the name of the first descriptor whose supported-methods set
contains the requested capability (first-match, no scoring); on an empty
catalog, or when no entry supports the capability, it fails with
`NoEligibleModel` naming the unsatisfied capability. -/
theorem C6_resolver_first_match (catalog : List ModelDescriptor) (capability : String) :
    resolve_from_catalog catalog capability =
      match catalog.find? (fun m => decide (capability ∈ m.supportedGenerationMethods)) with
      | some m => .ok m.name
      | none => .error (.NoEligibleModel capability) := by
  induction catalog with
  | nil => rfl
  | cons m ms ih =>
    simp only [resolve_from_catalog, List.find?]
    by_cases hc : capability ∈ m.supportedGenerationMethods
    · simp [hc]
    · simp [hc, ih]

/-- C2: on a non-success unary upstream status with a JSON object body,
both `/chat` and `/generate-image` respond with the upstream's own status
code, the detail being the body's `"error"` sub-object when that key is
present, otherwise the whole body. -/
theorem C2_upstream_error_passthrough (token prompt : String) (ht : token ≠ "")
    (s : Nat) (kvs : List (String × Json)) (p : Json)
    (hs : s ≠ 200) (hp : p.truthy = true) :
    render (chat_route (some token) token prompt (.ok s (.obj kvs))).2
      = some ⟨s, .obj [("detail", (kvs.lookup "error").getD (.obj kvs))]⟩
    ∧ render (generate_image_route (some token) token
          (.obj [("payload", p)]) (.ok s (.obj kvs))).2
      = some ⟨s, .obj [("detail", (kvs.lookup "error").getD (.obj kvs))]⟩ := by
  constructor
  · simp [chat_route, authGate, api_key_header, verify_api_key, ht, chat,
      call_google_api, pyGet, hs, render, http_exception_handler]
  · simp [generate_image_route, authGate, api_key_header, verify_api_key, ht,
      generate_image, call_google_api, pyGet, List.lookup, hp, hs, render,
      http_exception_handler]

/-- Witness for C2 at the spec's quota-exceeded example. -/
theorem C2_upstream_error_passthrough_witness :
    ("defaultapitoken" ≠ "") ∧ ((429 : Nat) ≠ 200)
    ∧ ((Json.obj [("k", .str "v")]).truthy = true)
    ∧ render (chat_route (some "defaultapitoken") "defaultapitoken" "hi"
        (.ok 429 (.obj [("error", .obj [("message", .str "quota exceeded")])]))).2
      = some ⟨429, .obj [("detail", .obj [("message", .str "quota exceeded")])]⟩ := by
  refine ⟨by decide, by decide, by decide, ?_⟩
  rw [(C2_upstream_error_passthrough "defaultapitoken" "hi" (by decide) 429
        [("error", .obj [("message", .str "quota exceeded")])]
        (Json.obj [("k", .str "v")]) (by decide) (by decide)).1]
  rfl

/-- C4: on a success (200) unary upstream status, `/chat` responds 200
with `{"response": t}` where `t` is the text of the first part of the
first candidate; an absent or empty candidates list, or a missing
`content`, `parts` or `text` field along that path, degrades to
`{"response": ""}` rather than an error. -/
theorem C4_unary_extraction (token prompt : String) (ht : token ≠ "")
    (t : Json) (cs ps : List Json)
    (restR restC restK restP : List (String × Json)) :
    render (chat_route (some token) token prompt
        (.ok 200 (shaped_result t cs ps restR restC restK restP))).2
      = some ⟨200, .obj [("response", t)]⟩
    ∧ render (chat_route (some token) token prompt
        (.ok 200 (.obj (("candidates", .arr []) :: restR)))).2
      = some ⟨200, .obj [("response", .str "")]⟩
    ∧ (restR.lookup "candidates" = none →
        render (chat_route (some token) token prompt (.ok 200 (.obj restR))).2
          = some ⟨200, .obj [("response", .str "")]⟩)
    ∧ (restC.lookup "content" = none →
        render (chat_route (some token) token prompt (.ok 200
            (.obj [("candidates", .arr (.obj restC :: cs))]))).2
          = some ⟨200, .obj [("response", .str "")]⟩)
    ∧ (restK.lookup "parts" = none →
        render (chat_route (some token) token prompt (.ok 200
            (.obj [("candidates", .arr [.obj [("content", .obj restK)]])]))).2
          = some ⟨200, .obj [("response", .str "")]⟩)
    ∧ (restP.lookup "text" = none →
        render (chat_route (some token) token prompt (.ok 200
            (.obj [("candidates",
              .arr [.obj [("content",
                .obj [("parts", .arr (.obj restP :: ps))])]])]))).2
          = some ⟨200, .obj [("response", .str "")]⟩) := by
  refine ⟨?_, ?_, fun hR => ?_, fun hC => ?_, fun hK => ?_, fun hP => ?_⟩ <;>
    simp [chat_route, authGate, api_key_header, verify_api_key, ht, chat,
      call_google_api, chat_extract, shaped_result, pyGet, pyIndex0,
      Json.truthy, List.lookup, render, http_exception_handler, *]

/-- Witness for C4: a fully-shaped response, an empty candidates list and
an absent candidates key. -/
theorem C4_unary_extraction_witness :
    ("defaultapitoken" ≠ "")
    ∧ render (chat_route (some "defaultapitoken") "defaultapitoken" "hi" (.ok 200
        (shaped_result (.str "hello") [] [] [] [] [] []))).2
      = some ⟨200, .obj [("response", .str "hello")]⟩
    ∧ render (chat_route (some "defaultapitoken") "defaultapitoken" "hi"
        (.ok 200 (.obj [("candidates", .arr [])]))).2
      = some ⟨200, .obj [("response", .str "")]⟩
    ∧ render (chat_route (some "defaultapitoken") "defaultapitoken" "hi"
        (.ok 200 (.obj []))).2
      = some ⟨200, .obj [("response", .str "")]⟩ := by
  have h := C4_unary_extraction "defaultapitoken" "hi" (by decide)
    (.str "hello") [] [] [] [] [] []
  exact ⟨by decide, h.1, h.2.1, h.2.2.1 rfl⟩

/-- C3 counterexample: with the `X-API-KEY` header missing entirely, the
route responds 403 with detail `"Not authenticated"` (raised by the
`APIKeyHeader` dependency before `verify_api_key` runs), not 401 with the
`Invalid API Token` detail that the claim states. -/
theorem C3_missing_header_is_403 :
    render (chat_route none "defaultapitoken" "hi" (.ok 200 (.obj []))).2
      = some ⟨403, .obj [("detail", .str "Not authenticated")]⟩
    ∧ render (chat_route none "defaultapitoken" "hi" (.ok 200 (.obj []))).2
      ≠ some ⟨401, .obj [("detail", .obj [("error", .str "Invalid API Token")])]⟩ := by
  refine ⟨rfl, ?_⟩
  intro h
  rw [show render (chat_route none "defaultapitoken" "hi" (.ok 200 (.obj []))).2
      = some ⟨403, .obj [("detail", .str "Not authenticated")]⟩ from rfl] at h
  simp at h

/-- C3 amended: a request whose `X-API-KEY` does not match the configured
token makes no outbound call on any protected route; a present non-empty
wrong key yields 401 with `{"error": "Invalid API Token"}`, while a
missing or empty header yields 403 `"Not authenticated"` from the
`APIKeyHeader` dependency. -/
theorem C3_auth_failure (header : Option String) (token prompt : String)
    (body : Json) (o : UpstreamOutcome) (o2 : StreamOutcome)
    (h : header ≠ some token) :
    (chat_route header token prompt o).1 = []
    ∧ (chat_stream_route header token prompt o2).1 = []
    ∧ (generate_image_route header token body o).1 = []
    ∧ render (chat_route header token prompt o).2 =
        some (match header with
          | none => ⟨403, .obj [("detail", .str "Not authenticated")]⟩
          | some k =>
            if k = "" then ⟨403, .obj [("detail", .str "Not authenticated")]⟩
            else ⟨401, .obj [("detail",
                    .obj [("error", .str "Invalid API Token")])]⟩) := by
  cases header with
  | none => exact ⟨rfl, rfl, rfl, rfl⟩
  | some k =>
    by_cases he : k = ""
    · subst he
      refine ⟨?_, ?_, ?_, ?_⟩ <;>
        simp [chat_route, chat_stream_route, generate_image_route, authGate,
          api_key_header, render, http_exception_handler]
    · have hk : k ≠ token := fun e => h (by rw [e])
      refine ⟨?_, ?_, ?_, ?_⟩ <;>
        simp [chat_route, chat_stream_route, generate_image_route, authGate,
          api_key_header, verify_api_key, he, hk, render, http_exception_handler]

/-- Witness for the amended C3 at a present but wrong key. -/
theorem C3_auth_failure_witness :
    (some "wrong" ≠ some "defaultapitoken")
    ∧ (chat_route (some "wrong") "defaultapitoken" "hi" (.ok 200 (.obj []))).1 = []
    ∧ (chat_stream_route (some "wrong") "defaultapitoken" "hi" ⟨200, none, []⟩).1 = []
    ∧ (generate_image_route (some "wrong") "defaultapitoken" (.obj [])
        (.ok 200 (.obj []))).1 = []
    ∧ render (chat_route (some "wrong") "defaultapitoken" "hi" (.ok 200 (.obj []))).2 =
        some ⟨401, .obj [("detail", .obj [("error", .str "Invalid API Token")])]⟩ := by
  have h := C3_auth_failure (some "wrong") "defaultapitoken" "hi" (.obj [])
    (.ok 200 (.obj [])) ⟨200, none, []⟩ (by decide)
  exact ⟨by decide, h.1, h.2.1, h.2.2.1, h.2.2.2⟩

/-- C7 counterexample: a network failure reaching the provider is not
caught by any boundary in the module — the handler result is a
non-HTTPException exception, and no response (in particular no 500
carrying the exception's message as detail) is produced by the gateway's
own code. -/
theorem C7_net_failure_uncaught :
    (chat_route (some "defaultapitoken") "defaultapitoken" "hi"
        (.netFail "connection refused")).2 = .error (.other "connection refused")
    ∧ render (chat_route (some "defaultapitoken") "defaultapitoken" "hi"
        (.netFail "connection refused")).2 = none :=
  ⟨rfl, rfl⟩

/-- C7 amended: only `HTTPException`s are caught (by
`http_exception_handler`, which renders their own status and detail);
internal exceptions from a network failure or from an upstream body that
fails to decode as JSON escape the module's code unhandled on the unary
routes, instead of being converted to a 500 response carrying the
message. -/
theorem C7_no_catch_all (token prompt msg : String) (ht : token ≠ "")
    (p : Json) (hp : p.truthy = true) :
    render (chat_route (some token) token prompt (.netFail msg)).2 = none
    ∧ render (chat_route (some token) token prompt (.badJson msg)).2 = none
    ∧ render (generate_image_route (some token) token
        (.obj [("payload", p)]) (.netFail msg)).2 = none
    ∧ render (generate_image_route (some token) token
        (.obj [("payload", p)]) (.badJson msg)).2 = none
    ∧ ∀ s d, http_exception_handler (.httpExc s d) = some ⟨s, .obj [("detail", d)]⟩ := by
  refine ⟨?_, ?_, ?_, ?_, fun s d => rfl⟩ <;>
    simp [chat_route, generate_image_route, authGate, api_key_header,
      verify_api_key, ht, chat, generate_image, call_google_api, pyGet,
      List.lookup, hp, render, http_exception_handler]

/-- Witness for the amended C7 at a concrete network failure and decode
failure. -/
theorem C7_no_catch_all_witness :
    ("defaultapitoken" ≠ "") ∧ ((Json.obj [("k", .str "v")]).truthy = true)
    ∧ render (chat_route (some "defaultapitoken") "defaultapitoken" "hi"
        (.netFail "connection refused")).2 = none
    ∧ render (chat_route (some "defaultapitoken") "defaultapitoken" "hi"
        (.badJson "Expecting value")).2 = none := by
  have h := C7_no_catch_all "defaultapitoken" "hi" "connection refused" (by decide)
    (Json.obj [("k", .str "v")]) (by decide)
  have h2 := C7_no_catch_all "defaultapitoken" "hi" "Expecting value" (by decide)
    (Json.obj [("k", .str "v")]) (by decide)
  exact ⟨by decide, by decide, h.1, h2.2.1⟩

/-- C9: an authenticated `/generate-image` request whose JSON body lacks a
present, non-empty (truthy) `payload` field responds 400 with detail
`{"error": "payload is required"}` and makes no outbound call; with a
present non-empty payload, exactly one outbound call is made, carrying
that payload verbatim. -/
theorem C9_image_payload_required (token : String) (ht : token ≠ "")
    (kvs : List (String × Json)) (o : UpstreamOutcome) :
    (((kvs.lookup "payload").getD .null).truthy = false →
      (generate_image_route (some token) token (.obj kvs) o).1 = []
      ∧ render (generate_image_route (some token) token (.obj kvs) o).2
          = some ⟨400, .obj [("detail", .obj [("error", .str "payload is required")])]⟩)
    ∧ ∀ p, kvs.lookup "payload" = some p → p.truthy = true →
        (generate_image_route (some token) token (.obj kvs) o).1 = [⟨IMAGE_URL, p⟩] := by
  constructor
  · intro hfalse
    constructor <;>
      simp [generate_image_route, authGate, api_key_header, verify_api_key, ht,
        generate_image, pyGet, hfalse, render, http_exception_handler]
  · intro p hlook hp
    simp [generate_image_route, authGate, api_key_header, verify_api_key, ht,
      generate_image, pyGet, hlook, hp, render]

/-- Witness for C9: a body with no `payload` key, and a body with a
non-empty payload that is forwarded verbatim. -/
theorem C9_image_payload_required_witness :
    ("defaultapitoken" ≠ "")
    ∧ ((([] : List (String × Json)).lookup "payload").getD .null).truthy = false
    ∧ (generate_image_route (some "defaultapitoken") "defaultapitoken" (.obj [])
        (.ok 200 (.obj []))).1 = []
    ∧ render (generate_image_route (some "defaultapitoken") "defaultapitoken"
        (.obj []) (.ok 200 (.obj []))).2
      = some ⟨400, .obj [("detail", .obj [("error", .str "payload is required")])]⟩
    ∧ (generate_image_route (some "defaultapitoken") "defaultapitoken"
        (.obj [("payload", .obj [("x", .str "y")])]) (.ok 200 (.obj []))).1
      = [⟨IMAGE_URL, .obj [("x", .str "y")]⟩] := by
  have h := C9_image_payload_required "defaultapitoken" (by decide) [] (.ok 200 (.obj []))
  have h2 := C9_image_payload_required "defaultapitoken" (by decide)
    [("payload", .obj [("x", .str "y")])] (.ok 200 (.obj []))
  exact ⟨by decide, by decide, (h.1 (by decide)).1, (h.1 (by decide)).2,
    h2.2 (.obj [("x", .str "y")]) rfl (by decide)⟩
